import Mathlib

/-!
Shallow embedding of the FitBit export ETL pipeline (src/main.py).

The program reads per-metric JSON/CSV files, flattens nested JSON into
tables (pandas json_normalize), renames columns, derives a time index,
filters sentinel rows, and writes consolidated output files.  We model:

  - JSON values as the inductive type JVal;
  - a pandas DataFrame row as an association list of column name to cell;
  - a time-indexed DataFrame as a list of (index, row) pairs; the
    timestamp parser pd.to_datetime is an abstract parameter
    p : String -> Nat (any parse; theorems hold for all of them);
  - pandas sort_index as insertionSort on the index (pandas uses an
    unstable quicksort, so any correct sort is a faithful model);
  - file contents as lists of JVal records (one list per file), so
    quantifying over a list of file contents quantifies over every
    possible ordering of the input file list;
  - Python str.replace as an executable character-list scan (pyReplace).
-/

namespace FitBit

/-- JSON value, as loaded by json.load. -/
inductive JVal where
  | null : JVal
  | str : String → JVal
  | num : Int → JVal
  | bool : Bool → JVal
  | arr : List JVal → JVal
  | obj : List (String × JVal) → JVal

/-- One DataFrame cell: either a raw JSON value or a parsed timestamp
(the result of pd.to_datetime). -/
inductive Cell where
  | val : JVal → Cell
  | time : Nat → Cell

/-- One DataFrame row: association list of column name to cell. -/
abbrev Row := List (String × Cell)

/-- A time-indexed DataFrame: list of (index value, row). -/
abbrev DF := List (Nat × Row)

/-- Contents of one JSON file (each file holds a JSON list of records). -/
abbrev JFile := List JVal

mutual

/-- Flattening of one JSON value under a dotted/joined column name, as
pd.json_normalize does: nested objects recurse with sep-joined names,
everything else (scalars, lists) becomes a single cell. -/
def flattenVal (sep name : String) : JVal → Row
  | .obj fs => flattenFields sep name fs
  | v => [(name, .val v)]

/-- Flattening of the fields of a nested JSON object under a name. -/
def flattenFields (sep pre : String) : List (String × JVal) → Row
  | [] => []
  | (k, v) :: rest => flattenVal sep (pre ++ sep ++ k) v ++ flattenFields sep pre rest

end

/-- Flattening of the top-level fields of a record (no name yet). -/
def topFields (sep : String) : List (String × JVal) → Row
  | [] => []
  | (k, v) :: rest => flattenVal sep k v ++ topFields sep rest

/-- pd.json_normalize of a single record with the given separator. -/
def normalizeRecord (sep : String) : JVal → Row
  | .obj fs => topFields sep fs
  | _ => []

/-- DataFrame.rename(columns=f) applied to one row. -/
def renameRow (f : String → String) (r : Row) : Row :=
  r.map fun kc => (f kc.1, kc.2)

/-- DataFrame.rename(columns=dict): a fixed old-name to new-name table,
names not in the table are unchanged. -/
def renameMap (m : List (String × String)) : String → String :=
  fun k => (List.lookup k m).getD k

/-- Python str.replace scan over characters: non-overlapping, left to
right; the fuel argument is the length of the scanned list. -/
def replaceChars (pat rep : List Char) : Nat → List Char → List Char
  | _, [] => []
  | 0, s => s
  | fuel + 1, c :: rest =>
    if pat.isPrefixOf (c :: rest) then
      rep ++ replaceChars pat rep fuel (rest.drop (pat.length - 1))
    else
      c :: replaceChars pat rep fuel rest

/-- Python str.replace (replace every non-overlapping occurrence). -/
def pyReplace (s pat rep : String) : String :=
  if pat.data.isEmpty then s
  else { data := replaceChars pat.data rep.data s.data.length s.data }

/-- ASCII lower-casing of one character (str.casefold on the ASCII
column names this program produces). -/
def lowerChar (c : Char) : Char :=
  if 65 ≤ c.toNat ∧ c.toNat ≤ 90 then Char.ofNat (c.toNat + 32) else c

/-- ASCII lower-casing of a string. -/
def lowerStr (s : String) : String :=
  { data := s.data.map lowerChar }

/-- pd.to_datetime on one cell, for an abstract parser p: a string cell
becomes a parsed timestamp, anything else (NaN, numbers) is unchanged. -/
def parseCell (p : String → Nat) : Cell → Cell
  | .val (.str s) => .time (p s)
  | c => c

/-- df[col] = pd.to_datetime(df[col]) applied to one row. -/
def parseCol (p : String → Nat) (col : String) (r : Row) : Row :=
  r.map fun kc => if kc.1 == col then (kc.1, parseCell p kc.2) else kc

/-- Index value carried by a parsed cell. -/
def cellTime : Cell → Nat
  | .time t => t
  | .val _ => 0

/-- df.set_index(col, drop=True) applied to one row. -/
def indexRow (col : String) (r : Row) : Nat × Row :=
  (cellTime ((List.lookup col r).getD (.val .null)), r.filter fun kc => !(kc.1 == col))

/-- Parse a column with pd.to_datetime, then set it as the index. -/
def indexRowP (p : String → Nat) (col : String) (r : Row) : Nat × Row :=
  indexRow col (parseCol p col r)

/-- df.sort_index(ascending=True). -/
def sortIndex (df : DF) : DF :=
  df.insertionSort fun a b => a.1 ≤ b.1

/-- Series.notna() on an optional cell: false for NaN (JSON null) and
for a missing column, true otherwise. -/
def notna : Option Cell → Bool
  | none => false
  | some (.val .null) => false
  | some _ => true

/-- Series.eq(s) on one cell: elementwise comparison of the cell with a
string literal; only an equal string compares true (a number never
equals a string in Python). -/
def cellIsStr (c : Cell) (s : String) : Bool :=
  match c with
  | .val (.str t) => t == s
  | _ => false

/-- df[col].eq(s) on one row. -/
def colEqStr (col s : String) (r : Row) : Bool :=
  match List.lookup col r with
  | some c => cellIsStr c s
  | none => false

/-- Decimal digits of a string, as int() parses them. -/
def digitsToNat? : List Char → Option Nat → Option Nat
  | [], acc => acc
  | c :: cs, acc =>
    match acc with
    | some n => if c.isDigit then digitsToNat? cs (some (n * 10 + (c.toNat - 48))) else none
    | none => none

/-- Python int(s) on a decimal string literal. -/
def strToInt? (s : String) : Option Int :=
  match s.data with
  | '-' :: rest => if rest.isEmpty then none else (digitsToNat? rest (some 0)).map fun n => -(n : Int)
  | cs => if cs.isEmpty then none else (digitsToNat? cs (some 0)).map fun n => (n : Int)

/-- Series.astype(int) on one cell. -/
def cellInt? : Cell → Option Int
  | .val (.num n) => some n
  | .val (.str s) => strToInt? s
  | _ => none

/-- files_to_json: read all the files in the list into one JSON list
(Python sum(..., []) is a left fold of list concatenation). -/
def files_to_json (files : List JFile) : List JVal :=
  files.foldl (· ++ ·) []

/-- json_normalize followed by rename, for one record. -/
def recordToRow (sep : String) (f : String → String) (rec : JVal) : Row :=
  renameRow f (normalizeRecord sep rec)

/-- files_to_df with datetime=True: normalize all records, rename,
parse the datetime column, set it as the index and sort ascending. -/
def files_to_df (p : String → Nat) (f : String → String) (files : List JFile) : DF :=
  sortIndex (((files_to_json files).map (recordToRow "." f)).map (indexRowP p "datetime"))

/-- files_to_df with datetime=False: normalize and rename only. -/
def files_to_rows (f : String → String) (files : List JFile) : List Row :=
  (files_to_json files).map (recordToRow "." f)

/-- files_to_dfslist: one independently indexed and sorted DataFrame
per input file. -/
def files_to_dfslist (p : String → Nat) (f : String → String) (files : List JFile) : List DF :=
  files.map fun file =>
    sortIndex ((file.map (recordToRow "." f)).map (indexRowP p "datetime"))

/-- Column rename table of the heart-rate detail transform. -/
def hrRenames : List (String × String) :=
  [("dateTime", "datetime"), ("value.bpm", "bpm"), ("value.confidence", "confidence")]

/-- prep_heart_rate_details: the consolidated table, pd.concat of the
per-file DataFrames along the index, then sort_index ascending. -/
def prep_heart_rate_details_df (p : String → Nat) (files : List JFile) : DF :=
  sortIndex (files_to_dfslist p (renameMap hrRenames) files).flatten

/-- prep_heart_rate_details control flow: whether the invalid-format
warning was printed, which output files are written, and the table.
An unknown format falls into the csv branch. -/
def prep_heart_rate_details (p : String → Nat) (fmt : String) (files : List JFile) :
    Bool × List String × DF :=
  let warned := !(fmt == "hdf" || fmt == "csv")
  let outs := (if fmt == "hdf" then ["heart_rate.h5"] else ["heart_rate.csv"])
      ++ ["heart_rate_hourly.csv", "heart_rate_daily.csv"]
  (warned, outs, prep_heart_rate_details_df p files)

/-- Column mapper of the zone-summary transform: strip the fixed key
path and lower-case the zone name. -/
def zonesMapper (c : String) : String :=
  if c == "dateTime" then "datetime" else lowerStr (pyReplace c "value.valuesInZones." "")

/-- prep_heart_rate_zoning_data: single consolidated zone table. -/
def prep_heart_rate_zones (p : String → Nat) (files : List JFile) : DF :=
  files_to_df p zonesMapper files

/-- Column mapper of the resting-heart-rate transform. -/
def restingMapper (c : String) : String :=
  pyReplace (pyReplace c "value." "") "dateTime" "datetime"

/-- prep_heart_rate_resting_data: load without a datetime index, drop
rows whose date is NaN, parse datetime and date, index by datetime and
sort ascending. -/
def prep_heart_rate_resting (p : String → Nat) (files : List JFile) : DF :=
  let rows := (files_to_rows restingMapper files).filter fun r => notna (List.lookup "date" r)
  sortIndex ((rows.map fun r => parseCol p "datetime" (parseCol p "date" r)).map (indexRow "datetime"))

/-- Field lookup on a JSON object. -/
def getField (k : String) : JVal → Option JVal
  | .obj fs => List.lookup k fs
  | _ => none

/-- record[k1][k2] as a JSON list (the levels.data record path). -/
def recordPath2 (k1 k2 : String) (rec : JVal) : List JVal :=
  match getField k1 rec with
  | some lv =>
    match getField k2 lv with
    | some (.arr xs) => xs
    | _ => []
  | none => []

/-- prep_sleep_data, first output: explode every record along
levels.data, rename dateTime, index by it and sort. -/
def prep_sleep_details (p : String → Nat) (files : List JFile) : DF :=
  let rows := (files_to_json files).flatMap fun rec =>
    (recordPath2 "levels" "data" rec).map (recordToRow "." (renameMap [("dateTime", "datetime")]))
  sortIndex (rows.map (indexRowP p "datetime"))

/-- In-place replacement data["levels"] = data["levels"]["summary"]. -/
def replaceLevels : JVal → JVal
  | .obj fs => .obj (fs.map fun kv =>
      if kv.1 == "levels" then (kv.1, (getField "summary" kv.2).getD .null) else kv)
  | v => v

/-- Fixed rename table of the sleep-overview transform. -/
def sleepRenames : List (String × String) :=
  [("logId", "sleep_log_entry_id"), ("dateOfSleep", "date_of_sleep"),
   ("startTime", "start_time"), ("endTime", "end_time"),
   ("minutesToFallAsleep", "minutes_to_fall_asleep"), ("minutesAsleep", "minutes_asleep"),
   ("minutesAwake", "minutes_awake"), ("minutesAfterWakeup", "minutes_after_wakeup"),
   ("timeInBed", "time_in_bed"), ("mainSleep", "main_sleep")]

/-- Column mapper of the sleep-overview transform: strip the flattened
levels_ path, rewrite thirtyDayAvgMinutes, then apply the fixed table. -/
def sleepOverviewMapper (c : String) : String :=
  renameMap sleepRenames
    (pyReplace (pyReplace c "levels_" "") "thirtyDayAvgMinutes" "30_day_avg_minutes")

/-- prep_sleep_data, second output: replace levels by its summary,
flatten with underscore-joined names, drop type and infoCode, rename,
parse the three timestamp columns, index by the sleep date and sort. -/
def prep_sleep_overviews (p : String → Nat) (files : List JFile) : DF :=
  let rows := (files_to_json files).map fun rec =>
    renameRow sleepOverviewMapper
      ((normalizeRecord "_" (replaceLevels rec)).filter fun kc =>
        !(kc.1 == "type") && !(kc.1 == "infoCode"))
  sortIndex ((rows.map fun r =>
    parseCol p "date_of_sleep" (parseCol p "start_time" (parseCol p "end_time" r))).map
      (indexRow "date_of_sleep"))

/-- prep_sleep_data, third output: the sleep_score.csv rows, timestamp
column renamed to datetime, indexed by it and sorted. -/
def prep_sleep_scores (p : String → Nat) (rows : List Row) : DF :=
  sortIndex ((rows.map (renameRow (renameMap [("timestamp", "datetime")]))).map
    (indexRowP p "datetime"))

/-- Column rename table of the steps transform. -/
def stepsRenames : List (String × String) :=
  [("dateTime", "datetime"), ("value", "number")]

/-- prep_steps_data: consolidated steps table with the rows whose value
equals the string literal zero filtered out. -/
def prep_steps (p : String → Nat) (files : List JFile) : DF :=
  (files_to_df p (renameMap stepsRenames) files).filter fun kr => !(colEqStr "number" "0" kr.2)

/-- Column rename table of the distance transform. -/
def distanceRenames : List (String × String) :=
  [("dateTime", "datetime"), ("value", "distance")]

/-- prep_distance_data: consolidated distance table with the rows whose
value equals the string literal zero filtered out. -/
def prep_distance (p : String → Nat) (files : List JFile) : DF :=
  (files_to_df p (renameMap distanceRenames) files).filter fun kr => !(colEqStr "distance" "0" kr.2)

/-- One activity-level DataFrame: value column renamed to the short
level label. -/
def levelDf (p : String → Nat) (shortName : String) (files : List JFile) : DF :=
  files_to_df p (renameMap [("dateTime", "datetime"), ("value", shortName)]) files

/-- Column names present in a DataFrame (for NaN filling of missing
index values on the outer join). -/
def dfColNames (df : DF) : List String :=
  (df.flatMap fun kr => kr.2.map Prod.fst).dedup

/-- Row of a DataFrame at an index value; a missing value yields the
frame's columns filled with NaN, as pd.concat(axis=1) aligns them. -/
def rowAt (df : DF) (k : Nat) : Row :=
  match df.find? fun kr => kr.1 == k with
  | some kr => kr.2
  | none => (dfColNames df).map fun c => (c, Cell.val .null)

/-- Union of the indexes of the joined frames, sorted ascending and
deduplicated, as pandas returns it for monotonic indexes. -/
def concatKeys (dfs : List DF) : List Nat :=
  ((dfs.flatMap fun df => df.map Prod.fst).dedup).insertionSort (· ≤ ·)

/-- pd.concat(dfs, axis="columns"): outer join on the union of the
(monotonic) indexes, which pandas returns sorted and deduplicated. -/
def concatCols (dfs : List DF) : DF :=
  (concatKeys dfs).map fun k => (k, dfs.flatMap fun df => rowAt df k)

/-- Sentinel test of the activity-levels transform:
df.sedentary.astype(int).eq(1440) on one row's sedentary cell. -/
def sedentaryIs1440 (o : Option Cell) : Bool :=
  match o with
  | some c => match cellInt? c with | some n => n == 1440 | none => false
  | none => false

/-- prep_activity_level_data: the four level frames joined column-wise,
with full-sedentary days (1440 minutes) filtered out. -/
def prep_activity_levels (p : String → Nat) (sedF lightF modF veryF : List JFile) : DF :=
  let dfs := [levelDf p "sedentary" sedF, levelDf p "lightly" lightF,
              levelDf p "moderately" modF, levelDf p "very" veryF]
  (concatCols dfs).filter fun kr => !(sedentaryIs1440 (List.lookup "sedentary" kr.2))

/-- Fixed 4-element activityLevel placeholder backfilled into exercise
entries that lack the key. -/
def activityLevelPlaceholder : JVal :=
  .arr [.obj [("minutes", .null), ("name", .str "sedentary")],
        .obj [("minutes", .null), ("name", .str "lightly")],
        .obj [("minutes", .null), ("name", .str "fairly")],
        .obj [("minutes", .null), ("name", .str "very")]]

/-- Fixed 4-element heartRateZones placeholder backfilled into exercise
entries that lack the key. -/
def heartRateZonesPlaceholder : JVal :=
  .arr [.obj [("name", .str "Außerhalb der Zone"), ("min", .null), ("max", .null), ("minutes", .null)],
        .obj [("name", .str "Fettverbrennung"), ("min", .null), ("max", .null), ("minutes", .null)],
        .obj [("name", .str "Kardio"), ("min", .null), ("max", .null), ("minutes", .null)],
        .obj [("name", .str "Höchstleistung"), ("min", .null), ("max", .null), ("minutes", .null)]]

/-- Python "k" in item on a JSON object's field list. -/
def hasKey (fs : List (String × JVal)) (k : String) : Bool :=
  (List.lookup k fs).isSome

/-- The backfill loop body on one entry's fields: a missing
activityLevel or heartRateZones key is appended with its placeholder. -/
def backfillFields (fs : List (String × JVal)) : List (String × JVal) :=
  let fs1 := if hasKey fs "activityLevel" then fs else fs ++ [("activityLevel", activityLevelPlaceholder)]
  if hasKey fs1 "heartRateZones" then fs1 else fs1 ++ [("heartRateZones", heartRateZonesPlaceholder)]

/-- The backfill loop body on one exercise entry. -/
def backfillExercise : JVal → JVal
  | .obj fs => .obj (backfillFields fs)
  | v => v

/-- Entry-level metadata columns of the two exercise tables. -/
def exerciseMeta : List String :=
  ["logId", "activityName", "activityTypeId", "averageHeartRate", "calories", "duration",
   "activeDuration", "steps", "lastModified", "startTime"]

/-- pd.json_normalize(record_path=path, meta=meta, errors="ignore") on
one record: one row per element of record[path], the element flattened,
the metadata columns appended (missing metadata becomes NaN). -/
def explodeRecord (path : String) (meta : List String) (rec : JVal) : List Row :=
  match rec with
  | .obj fs =>
    (match List.lookup path fs with
     | some (.arr xs) => xs
     | _ => []).map fun e =>
      normalizeRecord "." e ++ meta.map fun m => (m, Cell.val ((List.lookup m fs).getD .null))
  | _ => []

/-- pd.json_normalize(record_path=path, meta=meta) on a record list. -/
def explodeRecords (path : String) (meta : List String) (recs : List JVal) : List Row :=
  recs.flatMap (explodeRecord path meta)

/-- Column rename table of the exercise transform. -/
def exerciseRenames : List (String × String) :=
  [("logId", "log_id"), ("activityName", "activity_name"),
   ("activityTypeId", "activity_type_id"), ("averageHeartRate", "average_heart_rate"),
   ("activeDuration", "active_duration"), ("lastModified", "last_modified"),
   ("startTime", "start_time")]

/-- df.set_index(col, drop=True) for a non-datetime index column. -/
def indexRowBy (col : String) (r : Row) : Cell × Row :=
  ((List.lookup col r).getD (Cell.val .null), r.filter fun kc => !(kc.1 == col))

/-- Shared shape of the two exercise outputs: backfill every entry,
explode along the given record path with the metadata columns, rename,
and index by log_id (no sort). -/
def prep_exercise_table (path : String) (files : List JFile) : List (Cell × Row) :=
  ((explodeRecords path exerciseMeta ((files_to_json files).map backfillExercise)).map
    (renameRow (renameMap exerciseRenames))).map (indexRowBy "log_id")

/-- prep_exercise_data, first output (activity_exercise_1.csv). -/
def prep_exercise_1 (files : List JFile) : List (Cell × Row) :=
  prep_exercise_table "activityLevel" files

/-- prep_exercise_data, second output (activity_exercise_2.csv). -/
def prep_exercise_2 (files : List JFile) : List (Cell × Row) :=
  prep_exercise_table "heartRateZones" files

/-- A DataFrame's index is non-decreasing (sorted ascending). -/
def dfSorted (df : DF) : Prop :=
  List.Sorted (· ≤ ·) (df.map Prod.fst)

/-- A file of the unpacked export: its directory components under the
source root, and its base filename. -/
structure SrcFile where
  dirs : List String
  name : String

/-- Whether a filename ends in the given extension, i.e. matches the
glob pattern star-dot-ext at any directory depth. -/
def endsWithExt (name ext : String) : Bool :=
  ext.data.isSuffixOf name.data

/-- collect_data: copy every JSON file found recursively under the
source root into the flat raw directory under its base filename, then
every CSV file likewise.  The result lists the copied base filenames
in copy order. -/
def collect_data (tree : List SrcFile) : List String :=
  (tree.filter fun f => endsWithExt f.name ".json").map (fun f => f.name)
    ++ (tree.filter fun f => endsWithExt f.name ".csv").map (fun f => f.name)

/-- Rows of the heartRateZones exercise table contributed by one
(already backfilled) entry: explode along heartRateZones with the
metadata columns, rename, index by log_id. -/
def exercise2RowsOfRecord (rec : JVal) : List (Cell × Row) :=
  ((explodeRecord "heartRateZones" exerciseMeta rec).map
    (renameRow (renameMap exerciseRenames))).map (indexRowBy "log_id")

/-- The four fixed zone names of the heartRateZones placeholder. -/
def zoneNames : List String :=
  ["Außerhalb der Zone", "Fettverbrennung", "Kardio", "Höchstleistung"]

/-- The renamed metadata columns (other than the log_id index) that an
exercise entry with fields fs carries on each of its exploded rows. -/
def exerciseMetaCols (fs : List (String × JVal)) : Row :=
  [("activity_name", Cell.val ((List.lookup "activityName" fs).getD .null)),
   ("activity_type_id", Cell.val ((List.lookup "activityTypeId" fs).getD .null)),
   ("average_heart_rate", Cell.val ((List.lookup "averageHeartRate" fs).getD .null)),
   ("calories", Cell.val ((List.lookup "calories" fs).getD .null)),
   ("duration", Cell.val ((List.lookup "duration" fs).getD .null)),
   ("active_duration", Cell.val ((List.lookup "activeDuration" fs).getD .null)),
   ("steps", Cell.val ((List.lookup "steps" fs).getD .null)),
   ("last_modified", Cell.val ((List.lookup "lastModified" fs).getD .null)),
   ("start_time", Cell.val ((List.lookup "startTime" fs).getD .null))]

/-- Numeric value of an index cell (an exercise log ID), 0 otherwise. -/
def cellIntD : Cell → Int
  | .val (.num n) => n
  | _ => 0

/-- Example parser for pd.to_datetime on three sample timestamps. -/
def toDatetimeDemo (s : String) : Nat :=
  if s == "2023-01-01T00:00:00" then 1
  else if s == "2023-01-01T00:01:00" then 2
  else if s == "2023-01-01T00:02:00" then 3
  else 0

/-- Example parser for pd.to_datetime on two sample dates. -/
def toDateDemo (s : String) : Nat :=
  if s == "2023-01-01" then 1 else if s == "2023-01-02" then 2 else 0

/-- A steps/distance intraday record, as in steps-YYYY-MM-DD.json. -/
def stepsRec (dt : String) (v : JVal) : JVal :=
  .obj [("dateTime", .str dt), ("value", v)]

/-- An activity-level minutes record, whose value is the string-encoded
minute count, as in sedentary_minutes-YYYY-MM-DD.json. -/
def minutesRec (dt v : String) : JVal :=
  .obj [("dateTime", .str dt), ("value", .str v)]

/-- A resting-heart-rate record, as in resting_heart_rate-YYYY.json:
a dateTime field and a nested value object with date, value, error. -/
def restingRecord (dt : String) (d v e : JVal) : JVal :=
  .obj [("dateTime", .str dt), ("value", .obj [("date", d), ("value", v), ("error", e)])]

/-- One per-stage summary object of a sleep record's levels.summary. -/
def sleepStage (c m a : Int) : JVal :=
  .obj [("count", .num c), ("minutes", .num m), ("thirtyDayAvgMinutes", .num a)]

/-- A sleep-session record with the standard top-level fields, as in
sleep-YYYY-MM-DD.json. -/
def sleepRecord (logId : Int) (dos st et : String) (dur mtfa masl maw mawu tib eff : Int)
    (typ : String) (info : Int) (levels : JVal) (mainSleep : Bool) : JVal :=
  .obj [("logId", .num logId), ("dateOfSleep", .str dos), ("startTime", .str st),
        ("endTime", .str et), ("duration", .num dur), ("minutesToFallAsleep", .num mtfa),
        ("minutesAsleep", .num masl), ("minutesAwake", .num maw),
        ("minutesAfterWakeup", .num mawu), ("timeInBed", .num tib), ("efficiency", .num eff),
        ("type", .str typ), ("infoCode", .num info),
        ("levels", levels), ("mainSleep", .bool mainSleep)]

/-- An exercise entry with log ID 2 that already has an activityLevel
and a heartRateZones breakdown. -/
def exItemA : JVal :=
  .obj [("logId", .num 2),
        ("activityLevel", .arr [.obj [("minutes", .num 5), ("name", .str "sedentary")]]),
        ("heartRateZones", .arr [.obj [("name", .str "Kardio"), ("min", .num 100),
                                       ("max", .num 120), ("minutes", .num 7)]])]

/-- An exercise entry with log ID 1 that already has an activityLevel
and a heartRateZones breakdown. -/
def exItemB : JVal :=
  .obj [("logId", .num 1),
        ("activityLevel", .arr [.obj [("minutes", .num 3), ("name", .str "sedentary")]]),
        ("heartRateZones", .arr [.obj [("name", .str "Kardio"), ("min", .num 100),
                                       ("max", .num 118), ("minutes", .num 4)]])]

/-- Sorting a DataFrame by its index yields a non-decreasing index. -/
theorem dfSorted_sortIndex (df : DF) : dfSorted (sortIndex df) := by
  unfold dfSorted sortIndex
  haveI : IsTotal (Nat × Row) fun a b => a.1 ≤ b.1 := ⟨fun a b => Nat.le_total a.1 b.1⟩
  haveI : IsTrans (Nat × Row) fun a b => a.1 ≤ b.1 := ⟨fun a b c hab hbc => Nat.le_trans hab hbc⟩
  exact List.Pairwise.map Prod.fst (fun a b hab => hab)
    (List.sorted_insertionSort (fun (a b : Nat × Row) => a.1 ≤ b.1) df)

/-- Row filtering preserves a non-decreasing index. -/
theorem dfSorted_filter (q : Nat × Row → Bool) {df : DF} (h : dfSorted df) :
    dfSorted (df.filter q) :=
  List.Pairwise.sublist (List.Sublist.map Prod.fst (List.filter_sublist df)) h

/-- The column-wise outer join has a non-decreasing index. -/
theorem dfSorted_concatCols (dfs : List DF) : dfSorted (concatCols dfs) := by
  unfold dfSorted concatCols
  simp only [List.map_map]
  have heq : (Prod.fst ∘ fun k => ((k, dfs.flatMap fun df => rowAt df k) : Nat × Row)) =
      fun k => k := rfl
  rw [heq, List.map_id']
  exact List.sorted_insertionSort _ _

/-- Sorting a DataFrame does not change its number of rows. -/
theorem length_sortIndex (df : DF) : (sortIndex df).length = df.length :=
  (List.perm_insertionSort _ _).length_eq

/-- Left fold of list concatenation over an accumulator. -/
theorem foldl_append_flatten {α : Type} (l : List (List α)) (acc : List α) :
    l.foldl (· ++ ·) acc = acc ++ l.flatten := by
  induction l generalizing acc with
  | nil => simp
  | cons x xs ih => simp [ih, List.append_assoc]

/-- C1 (amended: the exercise-log transform excluded): for the heart-rate
detail, zone summary, resting heart rate, sleep detail, sleep overview,
sleep score, steps, distance and activity-level transforms, the index of
the consolidated output table is non-decreasing (sorted ascending), for
every ordering of the input file list and every timestamp parser. -/
theorem claim1_outputs_sorted_amended (p : String → Nat)
    (hrFiles zoneFiles restFiles sleepFiles stepFiles distFiles : List JFile)
    (scoreRows : List Row) (sedF lightF modF veryF : List JFile) :
    dfSorted (prep_heart_rate_details_df p hrFiles) ∧
    dfSorted (prep_heart_rate_zones p zoneFiles) ∧
    dfSorted (prep_heart_rate_resting p restFiles) ∧
    dfSorted (prep_sleep_details p sleepFiles) ∧
    dfSorted (prep_sleep_overviews p sleepFiles) ∧
    dfSorted (prep_sleep_scores p scoreRows) ∧
    dfSorted (prep_steps p stepFiles) ∧
    dfSorted (prep_distance p distFiles) ∧
    dfSorted (prep_activity_levels p sedF lightF modF veryF) :=
  ⟨dfSorted_sortIndex _, dfSorted_sortIndex _, dfSorted_sortIndex _, dfSorted_sortIndex _,
   dfSorted_sortIndex _, dfSorted_sortIndex _,
   dfSorted_filter _ (dfSorted_sortIndex _), dfSorted_filter _ (dfSorted_sortIndex _),
   dfSorted_filter _ (dfSorted_concatCols _)⟩

/-- C1 (counterexample): the exercise-log transform is also a transform
producing a single consolidated output indexed by its log ID, but its
written index is NOT non-decreasing: two entries whose log IDs are 2
then 1 yield the index [2, 1]. -/
theorem claim1_exercise_counterexample :
    ¬ List.Sorted (· ≤ ·)
      ((prep_exercise_2 [[exItemA], [exItemB]]).map fun kr => cellIntD kr.1) := by
  decide

/-- C6: files_to_json concatenates the per-file JSON lists in file
order, preserving each file's internal order; its length is the sum of
the per-file lengths. -/
theorem claim6_files_to_json_concat (files : List JFile) :
    files_to_json files = files.flatten ∧
    (files_to_json files).length = (files.map List.length).sum := by
  have h : files_to_json files = files.flatten := by
    unfold files_to_json
    simpa using foldl_append_flatten files []
  exact ⟨h, by rw [h, List.length_flatten]⟩

/-- C7: calling the heart-rate detail routine with a format other than
hdf or csv sets the warning but does not halt: the routine still writes
its output files (falling into the csv branch). -/
theorem claim7_invalid_format_warns_but_writes (p : String → Nat) (fmt : String)
    (files : List JFile) (h : ¬ (fmt = "hdf" ∨ fmt = "csv")) :
    (prep_heart_rate_details p fmt files).1 = true ∧
    (prep_heart_rate_details p fmt files).2.1 =
      ["heart_rate.csv", "heart_rate_hourly.csv", "heart_rate_daily.csv"] := by
  push_neg at h
  have b1 : (fmt == "hdf") = false := beq_eq_false_iff_ne.mpr h.1
  have b2 : (fmt == "csv") = false := beq_eq_false_iff_ne.mpr h.2
  simp [prep_heart_rate_details, b1, b2]

/-- C7 witness: the unknown format txt triggers the warning and the csv
branch of the outputs. -/
theorem claim7_witness :
    ¬ ("txt" = "hdf" ∨ "txt" = "csv") ∧
    ((prep_heart_rate_details (fun _ => 0) "txt" []).1 = true ∧
     (prep_heart_rate_details (fun _ => 0) "txt" []).2.1 =
       ["heart_rate.csv", "heart_rate_hourly.csv", "heart_rate_daily.csv"]) :=
  ⟨by decide, claim7_invalid_format_warns_but_writes (fun _ => 0) "txt" [] (by decide)⟩

/-- C8: the staging step copies exactly the files (at any depth under
the source root) whose name ends in .json or .csv, each under only its
base filename; files with any other suffix are never copied. -/
theorem claim8_collect_data_exact (tree : List SrcFile) (n : String) :
    n ∈ collect_data tree ↔
      ∃ f ∈ tree, (endsWithExt f.name ".json" = true ∨ endsWithExt f.name ".csv" = true) ∧
        n = f.name := by
  unfold collect_data
  simp only [List.mem_append, List.mem_map, List.mem_filter]
  constructor
  · rintro (⟨f, ⟨hf, hjson⟩, rfl⟩ | ⟨f, ⟨hf, hcsv⟩, rfl⟩)
    · exact ⟨f, hf, Or.inl hjson, rfl⟩
    · exact ⟨f, hf, Or.inr hcsv, rfl⟩
  · rintro ⟨f, hf, hsuf | hsuf, rfl⟩
    · exact Or.inl ⟨f, ⟨hf, hsuf⟩, rfl⟩
    · exact Or.inr ⟨f, ⟨hf, hsuf⟩, rfl⟩

/-- C10: the exercise backfill loop leaves an entry that already has
both the activityLevel and the heartRateZones key entirely unchanged. -/
theorem claim10_backfill_frame (fs : List (String × JVal))
    (h1 : hasKey fs "activityLevel" = true) (h2 : hasKey fs "heartRateZones" = true) :
    backfillExercise (.obj fs) = .obj fs := by
  simp [backfillExercise, backfillFields, h1, h2]

/-- Lookup misses a single pair with a different key. -/
theorem lookup_single_ne {β : Type} (k a : String) (v : β) (h : (k == a) = false) :
    List.lookup k [(a, v)] = none := by
  simp [List.lookup, h]

/-- Lookup ignores an appended pair with a different key. -/
theorem lookup_append_single (fs : List (String × JVal)) (k a : String) (v : JVal)
    (h : (k == a) = false) :
    List.lookup k (fs ++ [(a, v)]) = List.lookup k fs := by
  rw [List.lookup_append, lookup_single_ne k a v h, Option.or_none]

/-- Key membership ignores an appended pair with a different key. -/
theorem hasKey_append_single (fs : List (String × JVal)) (k a : String) (v : JVal)
    (h : (k == a) = false) :
    hasKey (fs ++ [(a, v)]) k = hasKey fs k := by
  unfold hasKey
  rw [lookup_append_single fs k a v h]

/-- The backfill loop body appends the placeholders of the two missing
keys, independently of each other. -/
theorem backfillFields_append (fs : List (String × JVal)) :
    backfillFields fs =
      (if hasKey fs "activityLevel" then fs
       else fs ++ [("activityLevel", activityLevelPlaceholder)]) ++
      (if hasKey fs "heartRateZones" then []
       else [("heartRateZones", heartRateZonesPlaceholder)]) := by
  unfold backfillFields
  cases hal : hasKey fs "activityLevel" <;>
    cases hrz : hasKey fs "heartRateZones" <;>
      simp [hasKey_append_single fs "heartRateZones" "activityLevel" activityLevelPlaceholder
        (by decide), hrz]

/-- An entry lacking heartRateZones carries the placeholder after the
backfill. -/
theorem lookup_hrz_backfill (fs : List (String × JVal))
    (h : hasKey fs "heartRateZones" = false) :
    List.lookup "heartRateZones" (backfillFields fs) = some heartRateZonesPlaceholder := by
  have hfs : List.lookup "heartRateZones" fs = none := by
    cases hq : List.lookup "heartRateZones" fs with
    | none => rfl
    | some v => rw [hasKey, hq] at h; simp at h
  rw [backfillFields_append, List.lookup_append, h]
  cases hal : hasKey fs "activityLevel" <;>
    simp [List.lookup_append, hfs,
      lookup_single_ne "heartRateZones" "activityLevel" activityLevelPlaceholder (by decide),
      List.lookup]

/-- The backfill does not change any field other than the two
backfilled keys. -/
theorem lookup_meta_backfill (fs : List (String × JVal)) (m : String)
    (h1 : (m == "activityLevel") = false) (h2 : (m == "heartRateZones") = false) :
    List.lookup m (backfillFields fs) = List.lookup m fs := by
  rw [backfillFields_append, List.lookup_append]
  cases hal : hasKey fs "activityLevel" <;> cases hrz : hasKey fs "heartRateZones" <;>
    simp [List.lookup_append, lookup_single_ne m "activityLevel" activityLevelPlaceholder h1,
      lookup_single_ne m "heartRateZones" heartRateZonesPlaceholder h2]

/-- An exercise entry lacking heartRateZones contributes, after the
backfill, exactly four rows to the heartRateZones table: one per fixed
zone name, each with null min, max and minutes, each indexed by the
entry's log ID and carrying the entry's metadata columns. -/
theorem exercise2Rows_backfill (fs : List (String × JVal))
    (h : hasKey fs "heartRateZones" = false) :
    exercise2RowsOfRecord (backfillExercise (.obj fs)) =
      zoneNames.map fun zn =>
        (Cell.val ((List.lookup "logId" fs).getD .null),
         [("name", Cell.val (.str zn)), ("min", Cell.val .null), ("max", Cell.val .null),
          ("minutes", Cell.val .null)] ++ exerciseMetaCols fs) := by
  unfold exercise2RowsOfRecord
  simp only [backfillExercise, explodeRecord]
  rw [lookup_hrz_backfill fs h]
  simp only [heartRateZonesPlaceholder, exerciseMeta, List.map_cons, List.map_nil]
  rw [lookup_meta_backfill fs "logId" (by decide) (by decide),
      lookup_meta_backfill fs "activityName" (by decide) (by decide),
      lookup_meta_backfill fs "activityTypeId" (by decide) (by decide),
      lookup_meta_backfill fs "averageHeartRate" (by decide) (by decide),
      lookup_meta_backfill fs "calories" (by decide) (by decide),
      lookup_meta_backfill fs "duration" (by decide) (by decide),
      lookup_meta_backfill fs "activeDuration" (by decide) (by decide),
      lookup_meta_backfill fs "steps" (by decide) (by decide),
      lookup_meta_backfill fs "lastModified" (by decide) (by decide),
      lookup_meta_backfill fs "startTime" (by decide) (by decide)]
  rfl

/-- C3: the heartRateZones exercise table is the per-entry rows of the
backfilled entries in order, and an entry lacking heartRateZones yields
exactly the four fixed placeholder rows for its log ID: each with null
min, max and minutes and one of the four fixed zone names. -/
theorem claim3_exercise_backfill_rows :
    (∀ files : List JFile,
      prep_exercise_2 files =
        ((files_to_json files).map backfillExercise).flatMap exercise2RowsOfRecord) ∧
    (∀ fs : List (String × JVal), hasKey fs "heartRateZones" = false →
      exercise2RowsOfRecord (backfillExercise (.obj fs)) =
        zoneNames.map fun zn =>
          (Cell.val ((List.lookup "logId" fs).getD .null),
           [("name", Cell.val (.str zn)), ("min", Cell.val .null), ("max", Cell.val .null),
            ("minutes", Cell.val .null)] ++ exerciseMetaCols fs)) := by
  constructor
  · intro files
    unfold prep_exercise_2 prep_exercise_table explodeRecords
    rw [List.map_flatMap, List.map_flatMap]
    rfl
  · exact exercise2Rows_backfill

/-- C3 witness: a one-field entry without heartRateZones produces the
four placeholder rows. -/
theorem claim3_witness :
    hasKey [("logId", JVal.num 7)] "heartRateZones" = false ∧
    exercise2RowsOfRecord (backfillExercise (.obj [("logId", JVal.num 7)])) =
      zoneNames.map fun zn =>
        (Cell.val ((List.lookup "logId" [("logId", JVal.num 7)]).getD .null),
         [("name", Cell.val (.str zn)), ("min", Cell.val .null), ("max", Cell.val .null),
          ("minutes", Cell.val .null)] ++ exerciseMetaCols [("logId", JVal.num 7)]) :=
  ⟨by decide, claim3_exercise_backfill_rows.2 _ (by decide)⟩

/-- C2: the steps and distance outputs are exactly the consolidated
rows whose value column does not compare equal to the string literal
zero; the comparison is literal-exact, so the string zero-dot-zero and
the non-string number 0 are retained, shown both for the elementwise
comparison and end to end on a concrete three-record day. -/
theorem claim2_string_zero_filter (p : String → Nat) (files : List JFile) (k : Nat) (r : Row) :
    ((k, r) ∈ prep_steps p files ↔
      ((k, r) ∈ files_to_df p (renameMap stepsRenames) files ∧
        colEqStr "number" "0" r = false)) ∧
    ((k, r) ∈ prep_distance p files ↔
      ((k, r) ∈ files_to_df p (renameMap distanceRenames) files ∧
        colEqStr "distance" "0" r = false)) ∧
    cellIsStr (Cell.val (.str "0")) "0" = true ∧
    cellIsStr (Cell.val (.str "0.0")) "0" = false ∧
    cellIsStr (Cell.val (.num 0)) "0" = false ∧
    prep_steps toDatetimeDemo
      [[stepsRec "2023-01-01T00:00:00" (.str "0"),
        stepsRec "2023-01-01T00:01:00" (.str "0.0"),
        stepsRec "2023-01-01T00:02:00" (.num 0)]] =
      [(2, [("number", Cell.val (.str "0.0"))]), (3, [("number", Cell.val (.num 0))])] := by
  refine ⟨?_, ?_, rfl, rfl, rfl, rfl⟩
  · unfold prep_steps
    simp [List.mem_filter]
  · unfold prep_distance
    simp [List.mem_filter]

/-- C4: the activity-levels output is exactly the column-wise joined
table minus the rows whose sedentary cell cast to int equals 1440; on a
concrete two-day input the 1440-sedentary day is absent and the
1439-sedentary day is present with all four level columns. -/
theorem claim4_sedentary_filter (p : String → Nat) (sedF lightF modF veryF : List JFile)
    (k : Nat) (r : Row) :
    ((k, r) ∈ prep_activity_levels p sedF lightF modF veryF ↔
      ((k, r) ∈ concatCols [levelDf p "sedentary" sedF, levelDf p "lightly" lightF,
                            levelDf p "moderately" modF, levelDf p "very" veryF] ∧
        sedentaryIs1440 (List.lookup "sedentary" r) = false)) ∧
    prep_activity_levels toDateDemo
      [[minutesRec "2023-01-01" "1440", minutesRec "2023-01-02" "1439"]]
      [[minutesRec "2023-01-01" "0", minutesRec "2023-01-02" "10"]]
      [[minutesRec "2023-01-01" "0", minutesRec "2023-01-02" "20"]]
      [[minutesRec "2023-01-01" "0", minutesRec "2023-01-02" "30"]] =
      [(2, [("sedentary", Cell.val (.str "1439")), ("lightly", Cell.val (.str "10")),
            ("moderately", Cell.val (.str "20")), ("very", Cell.val (.str "30"))])] := by
  constructor
  · unfold prep_activity_levels
    simp [List.mem_filter]
  · rfl

set_option maxHeartbeats 4000000 in
/-- C5: a resting-heart-rate record whose date field is null is
excluded from the output, one with a non-null date is included and
indexed by its parsed datetime; moreover the output has exactly one row
per input record whose date is not NaN. -/
theorem claim5_resting_null_date (p : String → Nat) (dt1 dt2 ds : String) (v1 e1 v2 e2 : Int) :
    prep_heart_rate_resting p
      [[restingRecord dt1 .null (.num v1) (.num e1),
        restingRecord dt2 (.str ds) (.num v2) (.num e2)]] =
      [(p dt2, [("date", Cell.time (p ds)), ("value", Cell.val (.num v2)),
                ("error", Cell.val (.num e2))])] ∧
    ∀ files : List JFile,
      (prep_heart_rate_resting p files).length =
        ((files_to_rows restingMapper files).filter fun r =>
          notna (List.lookup "date" r)).length := by
  constructor
  · rfl
  · intro files
    simp [prep_heart_rate_resting, length_sortIndex, List.length_map]

set_option maxHeartbeats 4000000 in
/-- C9: the sleep-overview transform replaces the nested levels object
by its summary sub-object, flattens with underscore-joined names, drops
exactly the type and infoCode columns, applies the fixed rename table,
parses the date-of-sleep, start-time and end-time columns as datetimes,
and indexes the output by the sleep date. -/
theorem claim9_sleep_overview_shape (p : String → Nat) (logId : Int) (dos st et : String)
    (dur mtfa masl maw mawu tib eff : Int) (typ : String) (info : Int)
    (dc dm da : Int) (ms : Bool) (data : JVal) :
    prep_sleep_overviews p
      [[sleepRecord logId dos st et dur mtfa masl maw mawu tib eff typ info
          (.obj [("summary", .obj [("deep", sleepStage dc dm da)]), ("data", data)]) ms]] =
    [(p dos,
      [("sleep_log_entry_id", Cell.val (.num logId)),
       ("start_time", Cell.time (p st)),
       ("end_time", Cell.time (p et)),
       ("duration", Cell.val (.num dur)),
       ("minutes_to_fall_asleep", Cell.val (.num mtfa)),
       ("minutes_asleep", Cell.val (.num masl)),
       ("minutes_awake", Cell.val (.num maw)),
       ("minutes_after_wakeup", Cell.val (.num mawu)),
       ("time_in_bed", Cell.val (.num tib)),
       ("efficiency", Cell.val (.num eff)),
       ("deep_count", Cell.val (.num dc)),
       ("deep_minutes", Cell.val (.num dm)),
       ("deep_30_day_avg_minutes", Cell.val (.num da)),
       ("main_sleep", Cell.val (.bool ms))])] := rfl

/-- C10 witness: an entry with both keys present passes through the
backfill unchanged. -/
theorem claim10_witness :
    hasKey [("activityLevel", JVal.null), ("heartRateZones", JVal.null)] "activityLevel" = true ∧
    hasKey [("activityLevel", JVal.null), ("heartRateZones", JVal.null)] "heartRateZones" = true ∧
    backfillExercise (.obj [("activityLevel", JVal.null), ("heartRateZones", JVal.null)]) =
      .obj [("activityLevel", JVal.null), ("heartRateZones", JVal.null)] :=
  ⟨by decide, by decide, claim10_backfill_frame _ (by decide) (by decide)⟩

end FitBit
